import Mathlib

/-!
# Verification of the mu Environment Upsert Workflow

A shallow embedding of `workflows/environment_upsert.go` from stelligent/mu.
Go maps of string to string are association lists with most-recent-first
lookup (an insert prepends, a read takes the first hit, a read of a missing
key yields the empty string, exactly Go's zero-value map read). Collaborator
interfaces (stack manager, roleset manager, image finder, AZ counter) are a
record of pure functions; fallible Go calls return `Except String`.
Each workflow stage is a state-passing function; the shared mutable maps of
the Go closures live in the explicit `WorkflowState`. A ghost `calls` trace
records every collaborator invocation so that theorems can observe which
stages ran and what was submitted.
-/

/-- Go `map[string]string`, as an association list: insert prepends, lookup
takes the most recent binding. -/
abbrev StrMap : Type := List (String × String)

/-- Go map assignment `m[k] = v`. -/
def StrMap.insert (m : StrMap) (k v : String) : StrMap := (k, v) :: m

/-- Lookup returning the most recent binding for `k`, if any. -/
def StrMap.get (m : StrMap) (k : String) : Option String :=
  (m.find? (fun p => p.1 == k)).map (fun p => p.2)

/-- Go map read `m[k]`: the zero value `""` when the key is absent. -/
def StrMap.getD (m : StrMap) (k : String) : String := (StrMap.get m k).getD ""

/-- Go `strconv.FormatBool`. -/
def formatBool (b : Bool) : String := if b then "true" else "false"

/-- Go `strings.Join xs ","`. -/
def joinComma (xs : List String) : String := String.intercalate "," xs

/-- Go `strings.EqualFold`, restricted to ASCII case folding (the repository
only compares ASCII environment names): both strings are lowered
character by character and compared. -/
def equalFold (s t : String) : Bool :=
  s.data.map Char.toLower == t.data.map Char.toLower

/-- Errors produced by the workflow. `common.Warningf` produces the
`warning` class, `fmt.Errorf` and propagated collaborator errors the plain
`err` class; the two are distinguishable by the caller. -/
inductive MuError : Type where
  | err (msg : String) : MuError
  | warning (msg : String) : MuError
deriving DecidableEq, Repr

/-- Modelled from the spec: `common.Warningf` (not under src/) wraps a
message into a Warning-class error, "distinct from a hard failure". -/
def Warningf (msg : String) : MuError := MuError.warning msg

/-- `common.Stack`: terminal outcome of an upsert, carrying status, status
reason and the output mapping. -/
structure Stack : Type where
  Status : String
  StatusReason : String
  Outputs : StrMap
deriving DecidableEq, Repr

/-- `common.Vpc` target reference from the environment configuration. -/
structure VpcTarget : Type where
  VpcID : String := ""
  Environment : String := ""
  Namespace : String := ""
  ElbSubnetIds : List String := []
  InstanceSubnetIds : List String := []
deriving DecidableEq, Repr

/-- Cluster sizing / AMI / access fields of `common.Environment`. Go `int`
fields are `Int`; their zero value is `0`. -/
structure Cluster : Type where
  InstanceTenancy : String := ""
  SSHAllow : String := ""
  KeyName : String := ""
  InstanceType : String := ""
  ExtraUserData : String := ""
  ImageID : String := ""
  ImageOsType : String := ""
  DesiredCapacity : Int := 0
  MinSize : Int := 0
  MaxSize : Int := 0
  TargetCPUReservation : Int := 0
  TargetMemoryReservation : Int := 0
  HTTPProxy : String := ""
deriving DecidableEq, Repr

/-- Load-balancer configuration of `common.Environment`. -/
structure Loadbalancer : Type where
  Certificate : String := ""
  HostedZone : String := ""
  Name : String := ""
  Internal : Bool := false
deriving DecidableEq, Repr

/-- Service-discovery configuration of `common.Environment`. -/
structure Discovery : Type where
  Provider : String := ""
  Name : String := ""
deriving DecidableEq, Repr

/-- `common.Environment`: one entry of the configuration's environment
list. -/
structure Environment : Type where
  Name : String := ""
  Provider : String := ""
  Cluster : Cluster := {}
  Loadbalancer : Loadbalancer := {}
  Discovery : Discovery := {}
  VpcTarget : VpcTarget := {}
deriving DecidableEq, Repr

/-- Repo metadata captured at construction (`ctx.Config.Repo`). -/
structure Repo : Type where
  Revision : String := ""
  Slug : String := ""
deriving DecidableEq, Repr

/-- The slice of `common.Config` the workflow reads. -/
structure Config : Type where
  Namespace : String := ""
  Environments : List Environment := []
  Repo : Repo := {}
deriving DecidableEq, Repr

/-- Modelled from the spec: the compute-provider variant tags
(`common.EnvProviderEcs` etc., not under src/); only their distinctness
matters to the workflow. ECS-on-instances variant. -/
def EnvProviderEcs : String := "ecs"

/-- Modelled from the spec: ECS-on-Fargate variant tag. -/
def EnvProviderEcsFargate : String := "ecs-fargate"

/-- Modelled from the spec: plain-EC2 variant tag. -/
def EnvProviderEc2 : String := "ec2"

/-- Modelled from the spec: fixed stack-type tag for the network layer
(`common.StackTypeVpc`, not under src/). -/
def StackTypeVpc : String := "vpc"

/-- Modelled from the spec: stack-type tag for the attribute-supplied
network passthrough stack (`common.StackTypeTarget`). -/
def StackTypeTarget : String := "target"

/-- Modelled from the spec: stack-type tag for the load-balancer layer
(`common.StackTypeLoadBalancer`). -/
def StackTypeLoadBalancer : String := "loadbalancer"

/-- Modelled from the spec: stack-type tag for the compute layer
(`common.StackTypeEnv`). -/
def StackTypeEnv : String := "environment"

/-- Modelled from the spec: `common.CreateStackName` (not under src/) joins
namespace, the fixed stack-type tag and the environment name into the stack
name, dash-separated. -/
def CreateStackName (nspace : String) (stackType : String) (name : String) : String :=
  nspace ++ "-" ++ stackType ++ "-" ++ name

/-- `ecsImagePattern` from environment_upsert.go. -/
def ecsImagePattern : String := "amzn-ami-*-amazon-ecs-optimized"

/-- `ec2ImagePattern` from environment_upsert.go. -/
def ec2ImagePattern : String := "amzn-ami-hvm-*-x86_64-gp2"

/-- Go `strings.HasSuffix s suffix`: `len(s) >= len(suffix)` and the last
`len(suffix)` characters of `s` equal `suffix`. -/
def hasSuffix (s suffix : String) : Bool :=
  decide (suffix.data.length ≤ s.data.length) &&
    (s.data.drop (s.data.length - suffix.data.length) == suffix.data)

/-- The completion classification every submitting stage performs after
`AwaitFinalStatus` (the identical four lines appear in the network,
load-balancer and compute stages): an absent outcome is a failure naming
the stack; a status ending in `ROLLBACK_COMPLETE` or not ending in
`_COMPLETE` is a failure carrying the raw status and status reason;
otherwise the outcome is a success. -/
def finalStatusCheck (stackName : String) (stack : Option Stack) : Except MuError Stack :=
  match stack with
  | none => Except.error (MuError.err ("Unable to create stack " ++ stackName))
  | some st =>
    if hasSuffix st.Status "ROLLBACK_COMPLETE" || !(hasSuffix st.Status "_COMPLETE") then
      Except.error (MuError.err ("Ended in failed status " ++ st.Status ++ " " ++ st.StatusReason))
    else
      Except.ok st

/-- Ghost record of one collaborator invocation, used to observe which
stages ran and what they submitted. -/
inductive CallRecord : Type where
  | upsertCommonRoleset : CallRecord
  | getCommonRoleset : CallRecord
  | upsertEnvironmentRoleset (name : String) : CallRecord
  | getEnvironmentRoleset (name : String) : CallRecord
  | findLatestImageID (pattern : String) : CallRecord
  | upsertStack (stackName : String) (templateName : String) (params : StrMap) : CallRecord
  | awaitFinalStatus (stackName : String) : CallRecord
  | countAZs : CallRecord
deriving DecidableEq, Repr

/-- The excluded collaborators, as pure capability records: roleset
manager, image finder, stack upserter, stack waiter, AZ counter. -/
structure Collaborators : Type where
  UpsertCommonRoleset : Except String Unit
  GetCommonRoleset : Except String StrMap
  UpsertEnvironmentRoleset : String → Except String Unit
  GetEnvironmentRoleset : String → Except String StrMap
  FindLatestImageID : String → Except String String
  UpsertStack : String → String → Environment → StrMap → StrMap → String → Except String Unit
  AwaitFinalStatus : String → Option Stack
  CountAZs : Except String Int

/-- The mutable state one pipeline invocation threads through its stages:
the `environmentWorkflow` record (resolved environment, derived role ARN,
repo metadata) together with the two shared parameter maps captured by the
stage closures, plus the ghost `calls` trace. -/
structure WorkflowState : Type where
  environment : Option Environment := none
  cloudFormationRoleArn : String := ""
  codeRevision : String := ""
  repoName : String := ""
  ecsStackParams : StrMap := []
  elbStackParams : StrMap := []
  calls : List CallRecord := []
deriving DecidableEq, Repr

/-- One unit of work of the pipeline (`Executor` = `func() error`, with the
shared mutable state made explicit). -/
abbrev Executor : Type := WorkflowState → WorkflowState × Option MuError

/-- The `EnvironmentTags` label set. The source field `Type` is a reserved
word in Lean and is rendered `TypeTag`. -/
structure EnvironmentTags : Type where
  Environment : String
  TypeTag : String
  Provider : String
  Revision : String
  Repo : String
deriving DecidableEq, Repr

/-- Modelled from the spec: the Tag Builder (`createTagMap`, not under
src/) attaches the uniform label set to every infrastructure operation;
the concrete key names are immaterial to the workflow. -/
def createTagMap (tags : EnvironmentTags) : StrMap :=
  [("mu:environment", tags.Environment), ("mu:type", tags.TypeTag),
   ("mu:provider", tags.Provider), ("mu:revision", tags.Revision),
   ("mu:repo", tags.Repo)]

/-- The resolver's scan: first entry whose name matches case-insensitively
(`for _, e := range config.Environments` with an early return). -/
def findEnvLoop (environments : List Environment) (environmentName : String) : Option Environment :=
  match environments with
  | [] => none
  | e :: rest =>
    if equalFold e.Name environmentName then some e else findEnvLoop rest environmentName

/-- The configuration's environment list as the resolver leaves it. Go's
`for _, e := range config.Environments` iterates over copies of the
entries, so the body's write `e.Provider = common.EnvProviderEcs` lands in
the loop-local copy (the copy whose address is stored into the Workflow
Context) and never reaches the list: the loop leaves the slice exactly as
it was. -/
def environmentsAfterFinder (environments : List Environment) (environmentName : String) : List Environment :=
  environments

/-- Stage 1, `environmentFinder`: scan for a case-insensitive name match;
on a match default an empty provider to ECS and store the (copied)
environment, rejecting the removed consul discovery provider; on no match
fail with a Warning naming the requested environment. -/
def environmentFinder (config : Config) (environmentName : String) : Executor := fun workflow =>
  match findEnvLoop config.Environments environmentName with
  | none =>
    (workflow, some (Warningf ("Unable to find environment named '" ++ environmentName ++ "' in configuration")))
  | some e0 =>
    let e := if e0.Provider = "" then { e0 with Provider := EnvProviderEcs } else e0
    let workflow := { workflow with environment := some e }
    if e.Discovery.Provider = "consul" then
      (workflow, some (MuError.err "Consul is no longer supported as a service discovery provider.  Check out the mu-consul extension for an alternative: https://github.com/stelligent/mu-consul"))
    else
      (workflow, none)

/-- Stage 2, `environmentRolesetUpserter`: upsert and read back the common
roleset (extracting the CloudFormation role ARN), then upsert and read
back the environment roleset, publishing the instance-profile ARN into the
compute-layer map. Any collaborator error aborts. The `none` case of the
stored environment cannot arise after the finder ran (Go would nil-panic);
it is modelled as an error. -/
def environmentRolesetUpserter (c : Collaborators) : Executor := fun workflow =>
  match workflow.environment with
  | none => (workflow, some (MuError.err "nil environment"))
  | some environment =>
    let workflow := { workflow with calls := workflow.calls ++ [CallRecord.upsertCommonRoleset] }
    match c.UpsertCommonRoleset with
    | Except.error e => (workflow, some (MuError.err e))
    | Except.ok _ =>
      let workflow := { workflow with calls := workflow.calls ++ [CallRecord.getCommonRoleset] }
      match c.GetCommonRoleset with
      | Except.error e => (workflow, some (MuError.err e))
      | Except.ok commonRoleset =>
        let workflow := { workflow with cloudFormationRoleArn := StrMap.getD commonRoleset "CloudFormationRoleArn" }
        let workflow := { workflow with calls := workflow.calls ++ [CallRecord.upsertEnvironmentRoleset environment.Name] }
        match c.UpsertEnvironmentRoleset environment.Name with
        | Except.error e => (workflow, some (MuError.err e))
        | Except.ok _ =>
          let workflow := { workflow with calls := workflow.calls ++ [CallRecord.getEnvironmentRoleset environment.Name] }
          match c.GetEnvironmentRoleset environment.Name with
          | Except.error e => (workflow, some (MuError.err e))
          | Except.ok environmentRoleset =>
            ({ workflow with ecsStackParams := StrMap.insert workflow.ecsStackParams "EC2InstanceProfileArn" (StrMap.getD environmentRoleset "EC2InstanceProfileArn") }, none)

/-- Branch selection of stage 3 (lines 60–100 of the source): borrowed
network / attribute-supplied target / managed VPC, in priority order,
yielding the stack name, the template name (empty when no template is
owed) and the local `vpcStackParams`. -/
def vpcBranch (c : Collaborators) (nspace : String) (workflow : WorkflowState)
    (environment : Environment) :
    WorkflowState × Except MuError (String × String × StrMap) :=
  if environment.VpcTarget.Environment ≠ "" then
    let targetNamespace := if environment.VpcTarget.Namespace = "" then nspace else environment.VpcTarget.Namespace
    (workflow, Except.ok (CreateStackName targetNamespace StackTypeVpc environment.VpcTarget.Environment, "", []))
  else if environment.VpcTarget.VpcID ≠ "" then
    let vpcStackParams : StrMap := []
    let vpcStackParams := StrMap.insert vpcStackParams "VpcId" environment.VpcTarget.VpcID
    let vpcStackParams := StrMap.insert vpcStackParams "ElbSubnetIds" (joinComma environment.VpcTarget.ElbSubnetIds)
    let vpcStackParams := StrMap.insert vpcStackParams "InstanceSubnetIds" (joinComma environment.VpcTarget.InstanceSubnetIds)
    (workflow, Except.ok (CreateStackName nspace StackTypeTarget environment.Name, "vpc-target.yml", vpcStackParams))
  else
    let vpcStackParams : StrMap := []
    let vpcStackParams :=
      if environment.Cluster.InstanceTenancy ≠ "" then
        StrMap.insert vpcStackParams "InstanceTenancy" environment.Cluster.InstanceTenancy
      else vpcStackParams
    let vpcStackParams :=
      if environment.Cluster.SSHAllow ≠ "" then
        StrMap.insert vpcStackParams "SshAllow" environment.Cluster.SSHAllow
      else
        StrMap.insert vpcStackParams "SshAllow" "0.0.0.0/0"
    if environment.Cluster.KeyName ≠ "" then
      let vpcStackParams := StrMap.insert vpcStackParams "BastionKeyName" environment.Cluster.KeyName
      let workflow := { workflow with calls := workflow.calls ++ [CallRecord.findLatestImageID ec2ImagePattern] }
      match c.FindLatestImageID ec2ImagePattern with
      | Except.error e => (workflow, Except.error (MuError.err e))
      | Except.ok imageID =>
        let vpcStackParams := StrMap.insert vpcStackParams "BastionImageId" imageID
        let vpcStackParams := StrMap.insert vpcStackParams "ElbInternal" (formatBool environment.Loadbalancer.Internal)
        (workflow, Except.ok (CreateStackName nspace StackTypeVpc environment.Name, "vpc.yml", vpcStackParams))
    else
      let vpcStackParams := StrMap.insert vpcStackParams "ElbInternal" (formatBool environment.Loadbalancer.Internal)
      (workflow, Except.ok (CreateStackName nspace StackTypeVpc environment.Name, "vpc.yml", vpcStackParams))

/-- The submit-and-wait part of the network stage (lines 111–136): when a
template is owed, build the tags, upsert, wait and classify. -/
def vpcSubmit (c : Collaborators) (environment : Environment) (workflow : WorkflowState)
    (vpcStackName vpcTemplateName : String) (vpcStackParams : StrMap) :
    WorkflowState × Except MuError Unit :=
  if vpcTemplateName ≠ "" then
    let tags := createTagMap
      { Environment := environment.Name, TypeTag := StackTypeVpc,
        Provider := environment.Provider, Revision := workflow.codeRevision,
        Repo := workflow.repoName }
    let workflow := { workflow with calls := workflow.calls ++ [CallRecord.upsertStack vpcStackName vpcTemplateName vpcStackParams] }
    match c.UpsertStack vpcStackName vpcTemplateName environment vpcStackParams tags workflow.cloudFormationRoleArn with
    | Except.error e => (workflow, Except.error (MuError.err e))
    | Except.ok _ =>
      let workflow := { workflow with calls := workflow.calls ++ [CallRecord.awaitFinalStatus vpcStackName] }
      match finalStatusCheck vpcStackName (c.AwaitFinalStatus vpcStackName) with
      | Except.error e => (workflow, Except.error e)
      | Except.ok _ => (workflow, Except.ok ())
  else (workflow, Except.ok ())

/-- The network stage proper: branch selection (`vpcBranch`, lines
60–100), availability-zone validation (lines 102–109), submit-and-wait
(`vpcSubmit`), and on success the publication of the four symbolic output
references. -/
def environmentVpcUpserter (c : Collaborators) (nspace : String) : Executor := fun workflow =>
  match workflow.environment with
  | none => (workflow, some (MuError.err "nil environment"))
  | some environment =>
    match vpcBranch c nspace workflow environment with
    | (workflow, Except.error e) => (workflow, some e)
    | (workflow, Except.ok (vpcStackName, vpcTemplateName, vpcStackParams)) =>
      let workflow := { workflow with calls := workflow.calls ++ [CallRecord.countAZs] }
      match c.CountAZs with
      | Except.error e => (workflow, some (MuError.err e))
      | Except.ok azCount =>
        if azCount < 2 then
          (workflow, some (MuError.err ("Only found " ++ toString azCount ++ " availability zones...need at least 2")))
        else
          let vpcStackParams := StrMap.insert vpcStackParams "AZCount" (toString azCount)
          match vpcSubmit c environment workflow vpcStackName vpcTemplateName vpcStackParams with
          | (workflow, Except.error e) => (workflow, some e)
          | (workflow, Except.ok _) =>
            let workflow := { workflow with ecsStackParams := StrMap.insert workflow.ecsStackParams "VpcId" (vpcStackName ++ "-VpcId") }
            let workflow := { workflow with ecsStackParams := StrMap.insert workflow.ecsStackParams "InstanceSubnetIds" (vpcStackName ++ "-InstanceSubnetIds") }
            let workflow := { workflow with elbStackParams := StrMap.insert workflow.elbStackParams "VpcId" (vpcStackName ++ "-VpcId") }
            let workflow := { workflow with elbStackParams := StrMap.insert workflow.elbStackParams "ElbSubnetIds" (vpcStackName ++ "-ElbSubnetIds") }
            (workflow, none)

/-- Stage 4, `environmentElbUpserter`: build the load-balancer parameters
on top of what the network stage wrote into the shared map
(`stackParams := elbStackParams` aliases it), submit `elb.yml`, wait,
classify, and on success publish the security-group output into the
compute-layer map. -/
def environmentElbUpserter (c : Collaborators) (nspace : String) : Executor := fun workflow =>
  match workflow.environment with
  | none => (workflow, some (MuError.err "nil environment"))
  | some environment =>
    let envStackName := CreateStackName nspace StackTypeLoadBalancer environment.Name
    let workflow :=
      if environment.Loadbalancer.Certificate ≠ "" then
        { workflow with elbStackParams := StrMap.insert workflow.elbStackParams "ElbCert" environment.Loadbalancer.Certificate }
      else workflow
    let workflow :=
      if environment.Loadbalancer.HostedZone ≠ "" then
        let workflow := { workflow with elbStackParams := StrMap.insert workflow.elbStackParams "ElbDomainName" environment.Loadbalancer.HostedZone }
        if environment.Loadbalancer.Name = "" then
          { workflow with elbStackParams := StrMap.insert workflow.elbStackParams "ElbHostName" environment.Name }
        else
          { workflow with elbStackParams := StrMap.insert workflow.elbStackParams "ElbHostName" environment.Loadbalancer.Name }
      else workflow
    let workflow :=
      if environment.Discovery.Name = "" then
        { workflow with elbStackParams := StrMap.insert workflow.elbStackParams "ServiceDiscoveryName" (environment.Name ++ "." ++ nspace ++ ".local") }
      else
        { workflow with elbStackParams := StrMap.insert workflow.elbStackParams "ServiceDiscoveryName" environment.Discovery.Name }
    let workflow := { workflow with elbStackParams := StrMap.insert workflow.elbStackParams "ElbInternal" (formatBool environment.Loadbalancer.Internal) }
    let tags := createTagMap
      { Environment := environment.Name, TypeTag := StackTypeLoadBalancer,
        Provider := environment.Provider, Revision := workflow.codeRevision,
        Repo := workflow.repoName }
    let workflow := { workflow with calls := workflow.calls ++ [CallRecord.upsertStack envStackName "elb.yml" workflow.elbStackParams] }
    match c.UpsertStack envStackName "elb.yml" environment workflow.elbStackParams tags workflow.cloudFormationRoleArn with
    | Except.error e => (workflow, some (MuError.err e))
    | Except.ok _ =>
      let workflow := { workflow with calls := workflow.calls ++ [CallRecord.awaitFinalStatus envStackName] }
      match finalStatusCheck envStackName (c.AwaitFinalStatus envStackName) with
      | Except.error e => (workflow, some e)
      | Except.ok stack =>
        ({ workflow with ecsStackParams := StrMap.insert workflow.ecsStackParams "ElbSecurityGroup" (StrMap.getD stack.Outputs "ElbInstanceSecurityGroup") }, none)

/-- The compute stage's provider dispatch table `envMapping`: a Go
map-of-maps, so an unknown provider yields the empty inner map (and hence
empty-string lookups). -/
def envMapping (provider : String) : StrMap :=
  if provider = EnvProviderEcs then
    [("templateName", "env-ecs.yml"), ("imagePattern", ecsImagePattern), ("launchType", "EC2")]
  else if provider = EnvProviderEcsFargate then
    [("templateName", "env-ecs.yml"), ("imagePattern", ecsImagePattern), ("launchType", "FARGATE")]
  else if provider = EnvProviderEc2 then
    [("templateName", "env-ec2.yml"), ("imagePattern", ec2ImagePattern), ("launchType", "")]
  else []

/-- Stage 5, `environmentUpserter` (compute): dispatch on the provider
variant, assemble the optional scalar parameters into the shared
compute-layer map (`stackParams := ecsStackParams` aliases it), resolve
the image id (explicit or by pattern lookup), submit, wait, classify. -/
def environmentUpserter (c : Collaborators) (nspace : String) : Executor := fun workflow =>
  match workflow.environment with
  | none => (workflow, some (MuError.err "nil environment"))
  | some environment =>
    let envStackName := CreateStackName nspace StackTypeEnv environment.Name
    let templateName := StrMap.getD (envMapping environment.Provider) "templateName"
    let imagePattern := StrMap.getD (envMapping environment.Provider) "imagePattern"
    let workflow := { workflow with ecsStackParams := StrMap.insert workflow.ecsStackParams "LaunchType" (StrMap.getD (envMapping environment.Provider) "launchType") }
    let workflow :=
      if environment.Cluster.SSHAllow ≠ "" then
        { workflow with ecsStackParams := StrMap.insert workflow.ecsStackParams "SshAllow" environment.Cluster.SSHAllow }
      else
        { workflow with ecsStackParams := StrMap.insert workflow.ecsStackParams "SshAllow" "0.0.0.0/0" }
    let workflow :=
      if environment.Cluster.InstanceType ≠ "" then
        { workflow with ecsStackParams := StrMap.insert workflow.ecsStackParams "InstanceType" environment.Cluster.InstanceType }
      else workflow
    let workflow :=
      if environment.Cluster.ExtraUserData ≠ "" then
        { workflow with ecsStackParams := StrMap.insert workflow.ecsStackParams "ExtraUserData" environment.Cluster.ExtraUserData }
      else workflow
    let imgStep : WorkflowState × Except MuError Unit :=
      if environment.Cluster.ImageID ≠ "" then
        ({ workflow with ecsStackParams := StrMap.insert workflow.ecsStackParams "ImageId" environment.Cluster.ImageID }, Except.ok ())
      else
        let workflow := { workflow with calls := workflow.calls ++ [CallRecord.findLatestImageID imagePattern] }
        match c.FindLatestImageID imagePattern with
        | Except.error e => (workflow, Except.error (MuError.err e))
        | Except.ok imageID =>
          ({ workflow with ecsStackParams := StrMap.insert workflow.ecsStackParams "ImageId" imageID }, Except.ok ())
    match imgStep with
    | (workflow, Except.error e) => (workflow, some e)
    | (workflow, Except.ok _) =>
      let workflow :=
        if environment.Cluster.ImageOsType ≠ "" then
          { workflow with ecsStackParams := StrMap.insert workflow.ecsStackParams "ImageOsType" environment.Cluster.ImageOsType }
        else workflow
      let workflow :=
        if environment.Cluster.DesiredCapacity ≠ 0 then
          { workflow with ecsStackParams := StrMap.insert workflow.ecsStackParams "DesiredCapacity" (toString environment.Cluster.DesiredCapacity) }
        else workflow
      let workflow :=
        if environment.Cluster.MinSize ≠ 0 then
          { workflow with ecsStackParams := StrMap.insert workflow.ecsStackParams "MinSize" (toString environment.Cluster.MinSize) }
        else workflow
      let workflow :=
        if environment.Cluster.MaxSize ≠ 0 then
          { workflow with ecsStackParams := StrMap.insert workflow.ecsStackParams "MaxSize" (toString environment.Cluster.MaxSize) }
        else workflow
      let workflow :=
        if environment.Cluster.KeyName ≠ "" then
          { workflow with ecsStackParams := StrMap.insert workflow.ecsStackParams "KeyName" environment.Cluster.KeyName }
        else workflow
      let workflow :=
        if environment.Cluster.TargetCPUReservation ≠ 0 then
          { workflow with ecsStackParams := StrMap.insert workflow.ecsStackParams "TargetCPUReservation" (toString environment.Cluster.TargetCPUReservation) }
        else workflow
      let workflow :=
        if environment.Cluster.TargetMemoryReservation ≠ 0 then
          { workflow with ecsStackParams := StrMap.insert workflow.ecsStackParams "TargetMemoryReservation" (toString environment.Cluster.TargetMemoryReservation) }
        else workflow
      let workflow :=
        if environment.Cluster.HTTPProxy ≠ "" then
          { workflow with ecsStackParams := StrMap.insert workflow.ecsStackParams "HttpProxy" environment.Cluster.HTTPProxy }
        else workflow
      let tags := createTagMap
        { Environment := environment.Name, TypeTag := StackTypeEnv,
          Provider := environment.Provider, Revision := workflow.codeRevision,
          Repo := workflow.repoName }
      let workflow := { workflow with calls := workflow.calls ++ [CallRecord.upsertStack envStackName templateName workflow.ecsStackParams] }
      match c.UpsertStack envStackName templateName environment workflow.ecsStackParams tags workflow.cloudFormationRoleArn with
      | Except.error e => (workflow, some (MuError.err e))
      | Except.ok _ =>
        let workflow := { workflow with calls := workflow.calls ++ [CallRecord.awaitFinalStatus envStackName] }
        match finalStatusCheck envStackName (c.AwaitFinalStatus envStackName) with
        | Except.error e => (workflow, some e)
        | Except.ok _ => (workflow, none)

/-- Modelled from the spec: the Executor Pipeline (`newPipelineExecutor`,
not under src/) runs the given units of work in order, halting at and
returning the first failure; it returns nil only if every unit
succeeded. -/
def newPipelineExecutor : List Executor → Executor
  | [], workflow => (workflow, none)
  | e :: rest, workflow =>
    match e workflow with
    | (w, some err) => (w, some err)
    | (w, none) => newPipelineExecutor rest w

/-- `NewEnvironmentUpserter`: build the per-invocation state (repo
metadata captured from the config, empty shared maps) and run the
five-stage pipeline. -/
def NewEnvironmentUpserter (c : Collaborators) (config : Config) (environmentName : String) : WorkflowState × Option MuError :=
  let workflow : WorkflowState :=
    { codeRevision := config.Repo.Revision, repoName := config.Repo.Slug }
  newPipelineExecutor
    [environmentFinder config environmentName,
     environmentRolesetUpserter c,
     environmentVpcUpserter c config.Namespace,
     environmentElbUpserter c config.Namespace,
     environmentUpserter c config.Namespace]
    workflow


/-- All-success collaborator outcome used by concrete runs: a clean
`CREATE_COMPLETE` stack exposing the security-group output. -/
def happyStack : Stack :=
  { Status := "CREATE_COMPLETE", StatusReason := "",
    Outputs := [("ElbInstanceSecurityGroup", "sg-12345")] }

/-- Collaborators for which every call succeeds: rolesets resolve, image
lookup answers deterministically from the pattern, upserts succeed, every
wait returns `happyStack`, and two availability zones are reported. -/
def happyCollaborators : Collaborators :=
  { UpsertCommonRoleset := Except.ok ()
  , GetCommonRoleset := Except.ok [("CloudFormationRoleArn", "arn:aws:iam::cfn-role")]
  , UpsertEnvironmentRoleset := fun _ => Except.ok ()
  , GetEnvironmentRoleset := fun _ => Except.ok [("EC2InstanceProfileArn", "arn:aws:iam::instance-profile")]
  , FindLatestImageID := fun pat => Except.ok ("ami-latest-for-" ++ pat)
  , UpsertStack := fun _ _ _ _ _ _ => Except.ok ()
  , AwaitFinalStatus := fun _ => some happyStack
  , CountAZs := Except.ok 2 }

/-- `happyCollaborators` except that only one availability zone exists. -/
def oneAZCollaborators : Collaborators :=
  { happyCollaborators with CountAZs := Except.ok 1 }

/-- A configuration with the single environment `staging`, provider,
VpcTarget, SSH-allow and key name all unset. -/
def stagingConfig : Config :=
  { Namespace := "mu", Environments := [{ Name := "staging" }],
    Repo := { Revision := "abc1234", Slug := "acme/app" } }

/-- An environment in the attribute-supplied network branch: explicit VPC
id and subnet lists, no target environment. -/
def attrTargetEnvironment : Environment :=
  { Name := "dev",
    VpcTarget := { VpcID := "vpc-123", ElbSubnetIds := ["subnet-a", "subnet-b"],
                   InstanceSubnetIds := ["subnet-c"] } }

/-- Workflow state as the network stage receives it for
`attrTargetEnvironment`. -/
def attrWorkflow : WorkflowState := { environment := some attrTargetEnvironment }

/-- An environment borrowing another environment's network. -/
def borrowedEnvironment : Environment :=
  { Name := "dev", VpcTarget := { Environment := "shared" } }

/-- Workflow state as the network stage receives it for
`borrowedEnvironment`. -/
def borrowedWorkflow : WorkflowState := { environment := some borrowedEnvironment }

/-- Workflow state as the load-balancer stage receives it for a minimal
environment `dev`. -/
def elbWorkflow : WorkflowState := { environment := some { Name := "dev" } }

/-- Does a ghost record mark a stack submission? -/
def CallRecord.isUpsertStack : CallRecord → Bool
  | CallRecord.upsertStack _ _ _ => true
  | _ => false

/-- The resolver's scan misses every entry that does not match
case-insensitively. -/
theorem findEnvLoop_eq_none (environments : List Environment) (name : String)
    (h : ∀ e ∈ environments, equalFold e.Name name = false) :
    findEnvLoop environments name = none := by
  induction environments with
  | nil => rfl
  | cons e rest ih =>
    have he := h e (List.mem_cons_self e rest)
    have hr : ∀ x ∈ rest, equalFold x.Name name = false :=
      fun x hx => h x (List.mem_cons_of_mem e hx)
    simp [findEnvLoop, he, ih hr]

/-- The resolver's scan only returns entries of the list. -/
theorem findEnvLoop_mem (environments : List Environment) (name : String)
    (e : Environment) (h : findEnvLoop environments name = some e) :
    e ∈ environments := by
  induction environments with
  | nil => simp [findEnvLoop] at h
  | cons x rest ih =>
    by_cases hx : equalFold x.Name name = true
    · simp [findEnvLoop, hx] at h
      simp [h]
    · simp [findEnvLoop, hx] at h
      exact List.mem_cons_of_mem x (ih h)

/-- C1: the completion classifier shared by the network, load-balancer and
compute stages treats an outcome as a success iff its status ends with
`_COMPLETE` and does not end with `ROLLBACK_COMPLETE`; any other terminal
status yields a failure error carrying the raw status and status reason,
and an absent outcome yields a failure error naming the stack. -/
theorem finalStatusCheck_classifies (stackName : String) (outcome : Option Stack) :
    (outcome = none →
      finalStatusCheck stackName outcome =
        Except.error (MuError.err ("Unable to create stack " ++ stackName))) ∧
    (∀ st, outcome = some st →
      (finalStatusCheck stackName outcome = Except.ok st ↔
        (hasSuffix st.Status "_COMPLETE" = true ∧
         hasSuffix st.Status "ROLLBACK_COMPLETE" = false))) ∧
    (∀ st, outcome = some st →
      (hasSuffix st.Status "ROLLBACK_COMPLETE" = true ∨
       hasSuffix st.Status "_COMPLETE" = false) →
      finalStatusCheck stackName outcome =
        Except.error (MuError.err
          ("Ended in failed status " ++ st.Status ++ " " ++ st.StatusReason))) := by
  refine ⟨?_, ?_, ?_⟩
  · rintro rfl; rfl
  · rintro st rfl
    cases hrb : hasSuffix st.Status "ROLLBACK_COMPLETE" <;>
      cases hc : hasSuffix st.Status "_COMPLETE" <;>
        simp [finalStatusCheck, hrb, hc]
  · rintro st rfl h
    rcases h with h | h <;> simp [finalStatusCheck, h]

/-- Witness for C1 at a concrete failed outcome: `UPDATE_ROLLBACK_COMPLETE`
matches the rollback suffix, so the classifier fails carrying status and
reason. -/
theorem finalStatusCheck_classifies_witness :
    finalStatusCheck "mystack" (some ⟨"UPDATE_ROLLBACK_COMPLETE", "boom", []⟩) =
      Except.error (MuError.err
        ("Ended in failed status " ++ "UPDATE_ROLLBACK_COMPLETE" ++ " " ++ "boom")) :=
  (finalStatusCheck_classifies "mystack"
      (some ⟨"UPDATE_ROLLBACK_COMPLETE", "boom", []⟩)).2.2
    ⟨"UPDATE_ROLLBACK_COMPLETE", "boom", []⟩ rfl (Or.inl (by decide))

/-- C7: the compute stage's provider dispatch yields `env-ecs.yml`/`EC2`
for ECS-on-instances, `env-ecs.yml`/`FARGATE` for ECS-on-Fargate, and
`env-ec2.yml` with an empty launch mode for plain EC2; the two ECS
variants share the ECS image glob while plain EC2 uses a distinct one. -/
theorem envMapping_dispatch :
    StrMap.getD (envMapping EnvProviderEcs) "templateName" = "env-ecs.yml" ∧
    StrMap.getD (envMapping EnvProviderEcs) "launchType" = "EC2" ∧
    StrMap.getD (envMapping EnvProviderEcsFargate) "templateName" = "env-ecs.yml" ∧
    StrMap.getD (envMapping EnvProviderEcsFargate) "launchType" = "FARGATE" ∧
    StrMap.getD (envMapping EnvProviderEc2) "templateName" = "env-ec2.yml" ∧
    StrMap.getD (envMapping EnvProviderEc2) "launchType" = "" ∧
    StrMap.getD (envMapping EnvProviderEcs) "imagePattern" = ecsImagePattern ∧
    StrMap.getD (envMapping EnvProviderEcsFargate) "imagePattern" = ecsImagePattern ∧
    StrMap.getD (envMapping EnvProviderEc2) "imagePattern" = ec2ImagePattern ∧
    ecsImagePattern ≠ ec2ImagePattern := by decide

/-- C8: on the all-success run for the one-environment configuration
`staging` (provider, VpcTarget, SSH-allow, key name unset; two
availability zones; every wait ends `CREATE_COMPLETE`) the pipeline
returns no error, the provider is defaulted to ECS-on-instances, and the
compute-layer map holds the open SSH default, the EC2 launch mode and the
image-lookup result for the ECS pattern. -/
theorem pipeline_end_to_end_staging :
    (NewEnvironmentUpserter happyCollaborators stagingConfig "staging").2 = none ∧
    (NewEnvironmentUpserter happyCollaborators stagingConfig "staging").1.environment.map
      Environment.Provider = some EnvProviderEcs ∧
    StrMap.get (NewEnvironmentUpserter happyCollaborators stagingConfig "staging").1.ecsStackParams
      "SshAllow" = some "0.0.0.0/0" ∧
    StrMap.get (NewEnvironmentUpserter happyCollaborators stagingConfig "staging").1.ecsStackParams
      "LaunchType" = some "EC2" ∧
    happyCollaborators.FindLatestImageID ecsImagePattern =
      Except.ok ("ami-latest-for-" ++ ecsImagePattern) ∧
    StrMap.get (NewEnvironmentUpserter happyCollaborators stagingConfig "staging").1.ecsStackParams
      "ImageId" = some ("ami-latest-for-" ++ ecsImagePattern) :=
  ⟨by decide, by decide, by decide, by decide, rfl, by decide⟩

/-- C4: when no configured environment matches the requested name
case-insensitively, the pipeline returns a Warning-class error (distinct
from the hard `err` class) carrying the requested name, and the returned
state is the untouched initial state: no roleset, network, load-balancer
or compute stage ran (empty call trace, empty parameter maps). -/
theorem pipeline_no_match_warning (c : Collaborators) (config : Config)
    (environmentName : String)
    (h : ∀ e ∈ config.Environments, equalFold e.Name environmentName = false) :
    NewEnvironmentUpserter c config environmentName =
      ({ codeRevision := config.Repo.Revision, repoName := config.Repo.Slug },
       some (MuError.warning
         ("Unable to find environment named '" ++ environmentName ++ "' in configuration"))) := by
  have hn := findEnvLoop_eq_none config.Environments environmentName h
  simp [NewEnvironmentUpserter, newPipelineExecutor, environmentFinder, hn, Warningf]

/-- Witness for C4: a configuration holding only `prod` cannot resolve
`staging`; the pipeline yields the Warning and runs nothing. -/
theorem pipeline_no_match_warning_witness :
    NewEnvironmentUpserter happyCollaborators
        { Namespace := "mu", Environments := [{ Name := "prod" }], Repo := {} } "staging" =
      ({ codeRevision := "", repoName := "" },
       some (MuError.warning
         ("Unable to find environment named '" ++ "staging" ++ "' in configuration"))) :=
  pipeline_no_match_warning happyCollaborators
    { Namespace := "mu", Environments := [{ Name := "prod" }], Repo := {} } "staging"
    (by decide)

/-- C10: the resolver never mutates the configuration's environment list —
Go's `range` iterates over copies, so the list the loop leaves behind is
the original — while provider defaulting is applied to the stored copy:
the Workflow Context receives the matched entry with provider `ecs`, and
the matched entry itself stays in the list with its empty provider. -/
theorem environmentFinder_preserves_config (config : Config) (environmentName : String)
    (workflow : WorkflowState) (e0 : Environment)
    (hfind : findEnvLoop config.Environments environmentName = some e0)
    (hprov : e0.Provider = "") :
    environmentsAfterFinder config.Environments environmentName = config.Environments ∧
    (environmentFinder config environmentName workflow).1.environment =
      some { e0 with Provider := EnvProviderEcs } ∧
    e0 ∈ config.Environments ∧ e0.Provider = "" := by
  refine ⟨rfl, ?_, findEnvLoop_mem _ _ _ hfind, hprov⟩
  simp only [environmentFinder, hfind, hprov, if_pos]
  split <;> rfl

/-- Witness for C10: resolving `staging` stores the entry with provider
defaulted to `ecs` while the configuration entry keeps its empty
provider. -/
theorem environmentFinder_preserves_config_witness :
    environmentsAfterFinder stagingConfig.Environments "staging" = stagingConfig.Environments ∧
    (environmentFinder stagingConfig "staging" {}).1.environment =
      some { ({ Name := "staging" } : Environment) with Provider := EnvProviderEcs } ∧
    ({ Name := "staging" } : Environment) ∈ stagingConfig.Environments ∧
    ({ Name := "staging" } : Environment).Provider = "" :=
  environmentFinder_preserves_config stagingConfig "staging" {}
    ({ Name := "staging" } : Environment) (by decide) rfl

/-- Reading back the key just written. -/
theorem StrMap.get_insert_self (m : StrMap) (k v : String) :
    StrMap.get (StrMap.insert m k v) k = some v := by
  simp [StrMap.insert, StrMap.get]

/-- Writing a different key leaves a lookup unchanged. -/
theorem StrMap.get_insert_ne (m : StrMap) (k k' v : String) (h : ¬ (k' = k)) :
    StrMap.get (StrMap.insert m k' v) k = StrMap.get m k := by
  have hb : (k' == k) = false := beq_eq_false_iff_ne.mpr h
  simp [StrMap.insert, StrMap.get, List.find?_cons, hb]

/-- C5: in the borrowed-network branch (`VpcTarget.Environment` set) with a
valid availability-zone count, the network stage succeeds, calls only the
AZ counter (no upsert, no wait: the whole call trace grows by exactly
`countAZs`), and still publishes the four symbolic `<stack-name>-<OutputKey>`
references, the stack name computed from the target namespace (defaulting
to the invocation's namespace), the network stack type and the target
environment's name. -/
theorem vpcUpserter_borrowed_branch (c : Collaborators) (nspace : String)
    (workflow : WorkflowState) (environment : Environment) (n : Int)
    (henv : workflow.environment = some environment)
    (hborrow : ¬ (environment.VpcTarget.Environment = ""))
    (haz : c.CountAZs = Except.ok n) (h2 : 2 ≤ n) :
    (environmentVpcUpserter c nspace workflow).2 = none ∧
    (environmentVpcUpserter c nspace workflow).1.calls =
      workflow.calls ++ [CallRecord.countAZs] ∧
    StrMap.get (environmentVpcUpserter c nspace workflow).1.ecsStackParams "VpcId" =
      some (CreateStackName
        (if environment.VpcTarget.Namespace = "" then nspace else environment.VpcTarget.Namespace)
        StackTypeVpc environment.VpcTarget.Environment ++ "-VpcId") ∧
    StrMap.get (environmentVpcUpserter c nspace workflow).1.ecsStackParams "InstanceSubnetIds" =
      some (CreateStackName
        (if environment.VpcTarget.Namespace = "" then nspace else environment.VpcTarget.Namespace)
        StackTypeVpc environment.VpcTarget.Environment ++ "-InstanceSubnetIds") ∧
    StrMap.get (environmentVpcUpserter c nspace workflow).1.elbStackParams "VpcId" =
      some (CreateStackName
        (if environment.VpcTarget.Namespace = "" then nspace else environment.VpcTarget.Namespace)
        StackTypeVpc environment.VpcTarget.Environment ++ "-VpcId") ∧
    StrMap.get (environmentVpcUpserter c nspace workflow).1.elbStackParams "ElbSubnetIds" =
      some (CreateStackName
        (if environment.VpcTarget.Namespace = "" then nspace else environment.VpcTarget.Namespace)
        StackTypeVpc environment.VpcTarget.Environment ++ "-ElbSubnetIds") := by
  have hlt : ¬ (n < 2) := not_lt.mpr h2
  have hb1 : ¬ ("InstanceSubnetIds" = "VpcId") := by decide
  have hb2 : ¬ ("ElbSubnetIds" = "VpcId") := by decide
  refine ⟨?_, ?_, ?_, ?_, ?_, ?_⟩ <;>
    simp [environmentVpcUpserter, vpcBranch, vpcSubmit, henv, hborrow, haz, hlt,
          StrMap.get_insert_self, StrMap.get_insert_ne, hb1, hb2]

/-- Witness for C5 at the concrete borrowed-network environment `dev`
targeting `shared` with two availability zones. -/
theorem vpcUpserter_borrowed_branch_witness :
    (environmentVpcUpserter happyCollaborators "mu" borrowedWorkflow).2 = none ∧
    (environmentVpcUpserter happyCollaborators "mu" borrowedWorkflow).1.calls =
      borrowedWorkflow.calls ++ [CallRecord.countAZs] ∧
    StrMap.get (environmentVpcUpserter happyCollaborators "mu" borrowedWorkflow).1.ecsStackParams "VpcId" =
      some (CreateStackName
        (if borrowedEnvironment.VpcTarget.Namespace = "" then "mu" else borrowedEnvironment.VpcTarget.Namespace)
        StackTypeVpc borrowedEnvironment.VpcTarget.Environment ++ "-VpcId") ∧
    StrMap.get (environmentVpcUpserter happyCollaborators "mu" borrowedWorkflow).1.ecsStackParams "InstanceSubnetIds" =
      some (CreateStackName
        (if borrowedEnvironment.VpcTarget.Namespace = "" then "mu" else borrowedEnvironment.VpcTarget.Namespace)
        StackTypeVpc borrowedEnvironment.VpcTarget.Environment ++ "-InstanceSubnetIds") ∧
    StrMap.get (environmentVpcUpserter happyCollaborators "mu" borrowedWorkflow).1.elbStackParams "VpcId" =
      some (CreateStackName
        (if borrowedEnvironment.VpcTarget.Namespace = "" then "mu" else borrowedEnvironment.VpcTarget.Namespace)
        StackTypeVpc borrowedEnvironment.VpcTarget.Environment ++ "-VpcId") ∧
    StrMap.get (environmentVpcUpserter happyCollaborators "mu" borrowedWorkflow).1.elbStackParams "ElbSubnetIds" =
      some (CreateStackName
        (if borrowedEnvironment.VpcTarget.Namespace = "" then "mu" else borrowedEnvironment.VpcTarget.Namespace)
        StackTypeVpc borrowedEnvironment.VpcTarget.Environment ++ "-ElbSubnetIds") :=
  vpcUpserter_borrowed_branch happyCollaborators "mu" borrowedWorkflow borrowedEnvironment 2
    rfl (by decide) rfl (by decide)

/-- C6: in every branch of the network stage (with an image finder that
answers, so the managed branch reaches the validation), an
availability-zone count below 2 fails with an error message carrying the
observed count and no stack is submitted; a count of 2 or more proceeds —
with succeeding collaborators the stage returns no error. -/
theorem vpcUpserter_az_validation (c : Collaborators) (nspace : String)
    (workflow : WorkflowState) (environment : Environment) (n : Int)
    (henv : workflow.environment = some environment)
    (haz : c.CountAZs = Except.ok n)
    (himg : ∀ p, ∃ v, c.FindLatestImageID p = Except.ok v)
    (hup : ∀ a b e p t r, c.UpsertStack a b e p t r = Except.ok ())
    (hawait : ∀ name, ∃ st, c.AwaitFinalStatus name = some st ∧
      hasSuffix st.Status "ROLLBACK_COMPLETE" = false ∧
      hasSuffix st.Status "_COMPLETE" = true) :
    (n < 2 →
      (environmentVpcUpserter c nspace workflow).2 =
        some (MuError.err ("Only found " ++ toString n ++ " availability zones...need at least 2")) ∧
      List.filter CallRecord.isUpsertStack (environmentVpcUpserter c nspace workflow).1.calls =
        List.filter CallRecord.isUpsertStack workflow.calls) ∧
    (2 ≤ n → (environmentVpcUpserter c nspace workflow).2 = none) := by
  constructor
  · intro hlt
    by_cases hbe : environment.VpcTarget.Environment = ""
    · by_cases hbv : environment.VpcTarget.VpcID = ""
      · by_cases hkey : environment.Cluster.KeyName = ""
        · refine ⟨?_, ?_⟩ <;>
            simp [environmentVpcUpserter, vpcBranch, vpcSubmit, henv, hbe, hbv, hkey, haz, hlt,
                  CallRecord.isUpsertStack]
        · obtain ⟨v, hv⟩ := himg ec2ImagePattern
          refine ⟨?_, ?_⟩ <;>
            simp [environmentVpcUpserter, vpcBranch, vpcSubmit, henv, hbe, hbv, hkey, hv, haz, hlt,
                  CallRecord.isUpsertStack]
      · refine ⟨?_, ?_⟩ <;>
          simp [environmentVpcUpserter, vpcBranch, vpcSubmit, henv, hbe, hbv, haz, hlt,
                CallRecord.isUpsertStack]
    · refine ⟨?_, ?_⟩ <;>
        simp [environmentVpcUpserter, vpcBranch, vpcSubmit, henv, hbe, haz, hlt,
              CallRecord.isUpsertStack]
  · intro h2
    have hlt : ¬ (n < 2) := not_lt.mpr h2
    by_cases hbe : environment.VpcTarget.Environment = ""
    · by_cases hbv : environment.VpcTarget.VpcID = ""
      · obtain ⟨st, hsta, hstrb, hstc⟩ :=
          hawait (CreateStackName nspace StackTypeVpc environment.Name)
        by_cases hkey : environment.Cluster.KeyName = ""
        · simp [environmentVpcUpserter, vpcBranch, vpcSubmit, henv, hbe, hbv, hkey, haz, hlt, hup,
                hsta, finalStatusCheck, hstrb, hstc]
        · obtain ⟨v, hv⟩ := himg ec2ImagePattern
          simp [environmentVpcUpserter, vpcBranch, vpcSubmit, henv, hbe, hbv, hkey, hv, haz, hlt, hup,
                hsta, finalStatusCheck, hstrb, hstc]
      · obtain ⟨st, hsta, hstrb, hstc⟩ :=
          hawait (CreateStackName nspace StackTypeTarget environment.Name)
        simp [environmentVpcUpserter, vpcBranch, vpcSubmit, henv, hbe, hbv, haz, hlt, hup,
              hsta, finalStatusCheck, hstrb, hstc]
    · simp [environmentVpcUpserter, vpcBranch, vpcSubmit, henv, hbe, haz, hlt]

/-- Witness for C6 at a single availability zone: the borrowed-network
environment fails with the message carrying `1`, submitting nothing. -/
theorem vpcUpserter_az_validation_witness :
    (environmentVpcUpserter oneAZCollaborators "mu" borrowedWorkflow).2 =
      some (MuError.err ("Only found " ++ toString (1 : Int) ++ " availability zones...need at least 2")) ∧
    List.filter CallRecord.isUpsertStack (environmentVpcUpserter oneAZCollaborators "mu" borrowedWorkflow).1.calls =
      List.filter CallRecord.isUpsertStack borrowedWorkflow.calls :=
  (vpcUpserter_az_validation oneAZCollaborators "mu" borrowedWorkflow borrowedEnvironment 1
      rfl rfl (fun p => ⟨"ami-latest-for-" ++ p, rfl⟩) (fun _ _ _ _ _ _ => rfl)
      (fun _ => ⟨happyStack, rfl, by decide, by decide⟩)).1 (by decide)

/-- Counterexample to C3 as stated: in the attribute-supplied branch the
parameter map submitted with `vpc-target.yml` carries a fourth entry,
`AZCount` — the availability-zone count is written into the stack
parameters unconditionally (line 109) before the upsert, in every
branch — so the submitted map is not limited to the three supplied
values. -/
theorem vpc_target_submits_azcount_counterexample :
    (environmentVpcUpserter happyCollaborators "mu" attrWorkflow).1.calls =
      [CallRecord.countAZs,
       CallRecord.upsertStack "mu-target-dev" "vpc-target.yml"
         [("AZCount", "2"), ("InstanceSubnetIds", "subnet-c"),
          ("ElbSubnetIds", "subnet-a,subnet-b"), ("VpcId", "vpc-123")],
       CallRecord.awaitFinalStatus "mu-target-dev"] ∧
    StrMap.get
      [("AZCount", "2"), ("InstanceSubnetIds", "subnet-c"),
       ("ElbSubnetIds", "subnet-a,subnet-b"), ("VpcId", "vpc-123")] "AZCount" = some "2" := by
  decide

/-- C3 (amended): in the attribute-supplied branch the parameter map
submitted with `vpc-target.yml` contains exactly the supplied VPC id, the
two comma-joined subnet-id lists and the AZ count — keys `VpcId`,
`ElbSubnetIds`, `InstanceSubnetIds` and `AZCount` — and no other
entries. -/
theorem vpcUpserter_attr_branch_params (c : Collaborators) (nspace : String)
    (workflow : WorkflowState) (environment : Environment) (n : Int)
    (henv : workflow.environment = some environment)
    (hbe : environment.VpcTarget.Environment = "")
    (hbv : ¬ (environment.VpcTarget.VpcID = ""))
    (haz : c.CountAZs = Except.ok n) (h2 : 2 ≤ n)
    (hup : ∀ a b e p t r, c.UpsertStack a b e p t r = Except.ok ()) :
    (environmentVpcUpserter c nspace workflow).1.calls =
      workflow.calls ++
        [CallRecord.countAZs,
         CallRecord.upsertStack (CreateStackName nspace StackTypeTarget environment.Name)
           "vpc-target.yml"
           [("AZCount", toString n),
            ("InstanceSubnetIds", joinComma environment.VpcTarget.InstanceSubnetIds),
            ("ElbSubnetIds", joinComma environment.VpcTarget.ElbSubnetIds),
            ("VpcId", environment.VpcTarget.VpcID)],
         CallRecord.awaitFinalStatus (CreateStackName nspace StackTypeTarget environment.Name)] := by
  have hlt : ¬ (n < 2) := not_lt.mpr h2
  rcases hfs : finalStatusCheck (CreateStackName nspace StackTypeTarget environment.Name)
      (c.AwaitFinalStatus (CreateStackName nspace StackTypeTarget environment.Name)) with e | st <;>
    simp [environmentVpcUpserter, vpcBranch, vpcSubmit, henv, hbe, hbv, haz, hlt, hup, hfs,
          StrMap.insert]

/-- Witness for the amended C3 at the concrete attribute-supplied
environment `dev` with two availability zones. -/
theorem vpcUpserter_attr_branch_params_witness :
    (environmentVpcUpserter happyCollaborators "mu" attrWorkflow).1.calls =
      attrWorkflow.calls ++
        [CallRecord.countAZs,
         CallRecord.upsertStack (CreateStackName "mu" StackTypeTarget attrTargetEnvironment.Name)
           "vpc-target.yml"
           [("AZCount", toString (2 : Int)),
            ("InstanceSubnetIds", joinComma attrTargetEnvironment.VpcTarget.InstanceSubnetIds),
            ("ElbSubnetIds", joinComma attrTargetEnvironment.VpcTarget.ElbSubnetIds),
            ("VpcId", attrTargetEnvironment.VpcTarget.VpcID)],
         CallRecord.awaitFinalStatus (CreateStackName "mu" StackTypeTarget attrTargetEnvironment.Name)] :=
  vpcUpserter_attr_branch_params happyCollaborators "mu" attrWorkflow attrTargetEnvironment 2
    rfl rfl (by decide) rfl (by decide) (fun _ _ _ _ _ _ => rfl)

/-- Counterexample to C2 as stated: on a successful load-balancer run the
value written under `ElbSecurityGroup` is the literal output value
`sg-12345` read from the outcome's output mapping, not the symbolic
reference `mu-loadbalancer-dev-ElbInstanceSecurityGroup`. -/
theorem elb_security_group_literal_counterexample :
    (environmentElbUpserter happyCollaborators "mu" elbWorkflow).2 = none ∧
    StrMap.get (environmentElbUpserter happyCollaborators "mu" elbWorkflow).1.ecsStackParams
      "ElbSecurityGroup" = some "sg-12345" ∧
    ¬ (("sg-12345" : String) =
        CreateStackName "mu" StackTypeLoadBalancer "dev" ++ "-ElbInstanceSecurityGroup") := by
  decide

/-- C2 (amended): after a successful load-balancer stage, the value
written under `ElbSecurityGroup` into the compute-layer map is the
literal value of the stack outcome's `ElbInstanceSecurityGroup` output,
resolved from the output mapping inside this workflow (the empty string
when the output is absent). -/
theorem elb_publishes_literal_security_group (c : Collaborators) (nspace : String)
    (workflow : WorkflowState) (environment : Environment) (st : Stack)
    (henv : workflow.environment = some environment)
    (hup : ∀ a b e p t r, c.UpsertStack a b e p t r = Except.ok ())
    (hawait : c.AwaitFinalStatus (CreateStackName nspace StackTypeLoadBalancer environment.Name) = some st)
    (hrb : hasSuffix st.Status "ROLLBACK_COMPLETE" = false)
    (hc : hasSuffix st.Status "_COMPLETE" = true) :
    (environmentElbUpserter c nspace workflow).2 = none ∧
    StrMap.get (environmentElbUpserter c nspace workflow).1.ecsStackParams "ElbSecurityGroup" =
      some (StrMap.getD st.Outputs "ElbInstanceSecurityGroup") := by
  simp only [environmentElbUpserter, henv]
  repeat' split
  all_goals simp_all [hup, hawait, finalStatusCheck, hrb, hc, StrMap.get_insert_self]

/-- Witness for the amended C2 at the concrete environment `dev` with the
all-success collaborators: the published value is the literal
`sg-12345`. -/
theorem elb_publishes_literal_security_group_witness :
    (environmentElbUpserter happyCollaborators "mu" elbWorkflow).2 = none ∧
    StrMap.get (environmentElbUpserter happyCollaborators "mu" elbWorkflow).1.ecsStackParams
      "ElbSecurityGroup" = some (StrMap.getD happyStack.Outputs "ElbInstanceSecurityGroup") :=
  elb_publishes_literal_security_group happyCollaborators "mu" elbWorkflow
    { Name := "dev" } happyStack rfl (fun _ _ _ _ _ _ => rfl) rfl (by decide) (by decide)

/-- The branch selection never touches the shared parameter maps. -/
theorem vpcBranch_frame (c : Collaborators) (nspace : String) (workflow : WorkflowState)
    (environment : Environment) :
    (vpcBranch c nspace workflow environment).1.ecsStackParams = workflow.ecsStackParams ∧
    (vpcBranch c nspace workflow environment).1.elbStackParams = workflow.elbStackParams := by
  simp only [vpcBranch]
  repeat' split
  all_goals simp

/-- The submit-and-wait step never touches the shared parameter maps. -/
theorem vpcSubmit_frame (c : Collaborators) (environment : Environment)
    (workflow : WorkflowState) (vpcStackName vpcTemplateName : String)
    (vpcStackParams : StrMap) :
    (vpcSubmit c environment workflow vpcStackName vpcTemplateName vpcStackParams).1.ecsStackParams =
      workflow.ecsStackParams ∧
    (vpcSubmit c environment workflow vpcStackName vpcTemplateName vpcStackParams).1.elbStackParams =
      workflow.elbStackParams := by
  simp only [vpcSubmit]
  repeat' split
  all_goals simp

/-- The network stage either succeeds or leaves both shared parameter maps
untouched. -/
theorem vpcUpserter_frame_disj (c : Collaborators) (nspace : String) (workflow : WorkflowState) :
    (environmentVpcUpserter c nspace workflow).2 = none ∨
    ((environmentVpcUpserter c nspace workflow).1.ecsStackParams = workflow.ecsStackParams ∧
     (environmentVpcUpserter c nspace workflow).1.elbStackParams = workflow.elbStackParams) := by
  rcases henv : workflow.environment with _ | environment
  · right
    simp [environmentVpcUpserter, henv]
  · rcases hbr : vpcBranch c nspace workflow environment with ⟨w1, r1⟩
    have hb1 := vpcBranch_frame c nspace workflow environment
    rw [hbr] at hb1
    rcases r1 with e | ⟨vpcStackName, vpcTemplateName, vpcStackParams⟩
    · right
      simp only [environmentVpcUpserter, henv, hbr]
      exact hb1
    · rcases haz : c.CountAZs with e | n
      · right
        simp only [environmentVpcUpserter, henv, hbr, haz]
        exact hb1
      · by_cases hlt : n < 2
        · right
          simp only [environmentVpcUpserter, henv, hbr, haz, if_pos hlt]
          exact hb1
        · rcases hsub : vpcSubmit c environment
              { w1 with calls := w1.calls ++ [CallRecord.countAZs] }
              vpcStackName vpcTemplateName
              (StrMap.insert vpcStackParams "AZCount" (toString n)) with ⟨w2, r2⟩
          have hb2 := vpcSubmit_frame c environment
            { w1 with calls := w1.calls ++ [CallRecord.countAZs] }
            vpcStackName vpcTemplateName
            (StrMap.insert vpcStackParams "AZCount" (toString n))
          rw [hsub] at hb2
          rcases r2 with e | u
          · right
            simp only [environmentVpcUpserter, henv, hbr, haz, if_neg hlt, hsub]
            exact ⟨hb2.1.trans hb1.1, hb2.2.trans hb1.2⟩
          · left
            simp only [environmentVpcUpserter, henv, hbr, haz, if_neg hlt, hsub]

/-- C9: whenever the network stage returns an error — AZ lookup failure,
count below 2, bastion image failure, upsert failure, absent outcome or
failed classification — the shared compute-layer and load-balancer-layer
maps are exactly as they were on entry: the symbolic references are
written only after every check has passed. -/
theorem vpcUpserter_error_frame (c : Collaborators) (nspace : String)
    (workflow : WorkflowState) (e : MuError)
    (h : (environmentVpcUpserter c nspace workflow).2 = some e) :
    (environmentVpcUpserter c nspace workflow).1.ecsStackParams = workflow.ecsStackParams ∧
    (environmentVpcUpserter c nspace workflow).1.elbStackParams = workflow.elbStackParams := by
  rcases vpcUpserter_frame_disj c nspace workflow with h0 | h0
  · rw [h] at h0
    exact absurd h0 (by simp)
  · exact h0

/-- Witness for C9: the one-AZ failure leaves both shared maps exactly as
they were. -/
theorem vpcUpserter_error_frame_witness :
    (environmentVpcUpserter oneAZCollaborators "mu" borrowedWorkflow).1.ecsStackParams =
      borrowedWorkflow.ecsStackParams ∧
    (environmentVpcUpserter oneAZCollaborators "mu" borrowedWorkflow).1.elbStackParams =
      borrowedWorkflow.elbStackParams :=
  vpcUpserter_error_frame oneAZCollaborators "mu" borrowedWorkflow
    (MuError.err ("Only found " ++ toString (1 : Int) ++ " availability zones...need at least 2"))
    (by decide)
